import Mathlib

/-
Verification of the MPD command-dispatch core (src/src/command.c) and the
client file-access helper (src/src/ClientFile.cxx).

The embedding is shallow: the C functions are translated into pure Lean
functions over an explicit formatter state.  The mutable globals
`current_command` and `command_listNum` of command.c become fields of
`MPD.CState`; bytes written to the client become a list of structured
`MPD.Line` values appended to the state.  Command handlers are external
collaborators (they call the playlist/player/database engines), so they are
modelled as abstract functions from (permission, argv) to an observable
outcome: body lines written, an optional command_error call, and an integer
return value.
-/

namespace MPD

/-- Modelled from the spec: ack.h is not under src/; the error-kind table of
section 7 gives the distinct ACK error kinds, and the numeric values follow
the protocol's consolidated codes.  Only distinctness of the constants
matters to the claims, never the concrete numerals. -/
def ACK_ERROR_NOT_LIST : Int := 1

def ACK_ERROR_ARG : Int := 2

def ACK_ERROR_PASSWORD : Int := 3

def ACK_ERROR_PERMISSION : Int := 4

def ACK_ERROR_UNKNOWN : Int := 5

def ACK_ERROR_NO_EXIST : Int := 50

def ACK_ERROR_PLAYLIST_MAX : Int := 51

def ACK_ERROR_SYSTEM : Int := 52

def ACK_ERROR_PLAYLIST_LOAD : Int := 53

def ACK_ERROR_UPDATE_ALREADY : Int := 54

def ACK_ERROR_PLAYER_SYNC : Int := 55

def ACK_ERROR_EXIST : Int := 56

/-- Modelled from the spec: command.h is not under src/; the two
connection-lifecycle sentinel return codes ("terminate the server process"
and "close the connection after responding") are distinct nonzero values,
distinct from the 0 (success) and -1 (failure) returns of ordinary
handlers. -/
def COMMAND_RETURN_KILL : Int := 10

def COMMAND_RETURN_CLOSE : Int := 20

/-- Modelled from the spec: permission.h is not under src/; the glossary
names the capability bits read, add, control, admin, each one bit of the
permission bitmask. -/
def PERMISSION_NONE : Nat := 0

def PERMISSION_READ : Nat := 1

def PERMISSION_ADD : Nat := 2

def PERMISSION_CONTROL : Nat := 4

def PERMISSION_ADMIN : Nat := 8

/-- One line written to the client.  `ack` mirrors the frame
`ACK [code@index] ... message` printed by command_error_v (command.c lines
194-206), with the current-command name as its own field. -/
inductive Line where
  | ok : Line
  | listOK : Line
  | ack (code : Int) (index : Nat) (name : String) (msg : String) : Line
  | body (text : String) : Line
deriving DecidableEq

/-- Rendering of a structured line to wire bytes, following the printf
formats of command.c (command_success, processListOfCommands,
command_error_v). -/
def renderLine : Line → String
  | .ok => "OK\n"
  | .listOK => "list_OK\n"
  | .ack code index name msg =>
      "ACK [" ++ toString code ++ "@" ++ toString index ++ "] \x7b" ++ name
        ++ "\x7d " ++ msg ++ "\n"
  | .body text => text ++ "\n"

/-- The formatter state of command.c: the globals current_command
(line 154; none is the C NULL) and command_listNum (line 155), plus the
stream of lines written to the client so far. -/
structure CState where
  currentCommand : Option String
  commandListNum : Nat
  output : List Line
deriving DecidableEq

/-- The initial state: current_command == NULL, command_listNum == 0,
nothing written. -/
def cstate0 : CState := ⟨none, 0, []⟩

/-- command.c lines 194-206, command_error_v: print
ACK [error@command_listNum] with the current command name and the message,
then clear current_command.  (The C function asserts
current_command != NULL; every call site in the dispatcher sets it first,
and the embedding records the name that is printed.) -/
def command_error (s : CState) (error : Int) (msg : String) : CState :=
  { s with
      output := s.output ++
        [Line.ack error s.commandListNum (s.currentCommand.getD "") msg]
      currentCommand := none }

/-- command.c lines 189-192, command_success: print the terminal OK line. -/
def command_success (s : CState) : CState :=
  { s with output := s.output ++ [Line.ok] }

/-- Observable behaviour of one command handler invocation: the body lines
it writes, the command_error call it makes (if any, with code and message),
and its integer return value.  Handlers are external collaborators of the
dispatch core. -/
structure HandlerOutcome where
  body : List String
  err : Option (Int × String)
  ret : Int

/-- command.c lines 136-143, struct _CommandEntry: name, inclusive arity
bounds on the argument vector including the command name (-1 means
unchecked), required permission bits, and the handler.  The C listHandler
variant is observationally covered by the same abstract outcome type. -/
structure CommandEntry where
  cmd : String
  min : Int
  max : Int
  reqPermission : Nat
  handler : Nat → List String → HandlerOutcome

/-- list.c findInList as used on the sorted command registry: return the
entry whose name equals the key, if any. -/
def findInList (l : List CommandEntry) (name : String) : Option CommandEntry :=
  l.find? (fun e => e.cmd == name)

/-- The distinct failure classes produced by the validation pipeline and by
the handler-local argument parsers.  Each constructor is one command_error
call site of command.c; `ackCode` and `ackMessage` give the code and the
formatted message that site passes. -/
inductive CmdError where
  | permissionDenied (name : String)
  | wrongArgCount (name : String)
  | tooFewArgs (name : String)
  | tooManyArgs (name : String)
  | argFormat (msg : String)
deriving DecidableEq

/-- The numeric ACK code passed by each command_error call site
(command.c lines 1406-1434 for the validation errors, lines 226 and 244
for the argument parsers). -/
def ackCode : CmdError → Int
  | .permissionDenied _ => ACK_ERROR_PERMISSION
  | .wrongArgCount _ => ACK_ERROR_ARG
  | .tooFewArgs _ => ACK_ERROR_ARG
  | .tooManyArgs _ => ACK_ERROR_ARG
  | .argFormat _ => ACK_ERROR_ARG

/-- The message text passed by each command_error call site. -/
def ackMessage : CmdError → String
  | .permissionDenied name => "you don't have permission for \"" ++ name ++ "\""
  | .wrongArgCount name => "wrong number of arguments for \"" ++ name ++ "\""
  | .tooFewArgs name => "too few arguments for \"" ++ name ++ "\""
  | .tooManyArgs name => "too many arguments for \"" ++ name ++ "\""
  | .argFormat msg => msg

/-- command.c lines 1400-1435, checkArgcAndPermission.  The C computes
min = cmd->min + 1 and max = cmd->max + 1 and tests, in order: missing
permission bits, min == 0 (arity unchecked), min == max with a mismatched
argc, argc below min, argc above a nonzero max.  Those expressions are
inlined here; argc is the argument-vector length. -/
def checkArgcAndPermission (cmd : CommandEntry) (permission : Nat)
    (argv : List String) : Option CmdError :=
  if cmd.reqPermission ≠ permission &&& cmd.reqPermission then
    some (.permissionDenied cmd.cmd)
  else if cmd.min + 1 = 0 then
    none
  else if cmd.min + 1 = cmd.max + 1 ∧ cmd.max + 1 ≠ (argv.length : Int) then
    some (.wrongArgCount (argv.headD ""))
  else if (argv.length : Int) < cmd.min + 1 then
    some (.tooFewArgs (argv.headD ""))
  else if (argv.length : Int) > cmd.max + 1 ∧ cmd.max + 1 ≠ 0 then
    some (.tooManyArgs (argv.headD ""))
  else
    none

/-- command.c lines 1437-1464, getCommandEntryAndCheckArgcAndPermission:
set current_command to the static empty string, bail out on an empty
argument vector, report an unknown name via command_error, otherwise record
the entry's own name as current_command and run checkArgcAndPermission
(whose failure is reported via command_error with the code and message of
the failing branch). -/
def getCommandEntryAndCheckArgcAndPermission (registry : List CommandEntry)
    (s : CState) (permission : Nat) (argv : List String) :
    CState × Option CommandEntry :=
  if argv.isEmpty then
    ({ s with currentCommand := some "" }, none)
  else
    match findInList registry (argv.headD "") with
    | none =>
        (command_error { s with currentCommand := some "" } ACK_ERROR_UNKNOWN
          ("unknown command \"" ++ argv.headD "" ++ "\""), none)
    | some cmd =>
        match checkArgcAndPermission cmd permission argv with
        | some e =>
            (command_error { s with currentCommand := some cmd.cmd }
              (ackCode e) (ackMessage e), none)
        | none => ({ s with currentCommand := some cmd.cmd }, some cmd)

/-- Application of one handler outcome to the state: write the body lines,
then perform the command_error call if the handler made one, and hand back
the handler's return value. -/
def runHandler (s : CState) (o : HandlerOutcome) : CState × Int :=
  match o.err with
  | some (code, msg) =>
      (command_error { s with output := s.output ++ o.body.map Line.body }
        code msg, o.ret)
  | none => ({ s with output := s.output ++ o.body.map Line.body }, o.ret)

/-- command.c lines 1481-1508, processCommandInternal: an empty argument
vector returns 0 immediately with no output; otherwise resolve and validate
the command, invoke its handler on success, and finally clear
current_command.  A resolution or validation failure returns the initial
ret value -1. -/
def processCommandInternal (registry : List CommandEntry) (s : CState)
    (permission : Nat) (argv : List String) : CState × Int :=
  if argv.isEmpty then (s, 0)
  else
    match getCommandEntryAndCheckArgcAndPermission registry s permission argv with
    | (s1, none) => ({ s1 with currentCommand := none }, -1)
    | (s1, some cmd) =>
        match runHandler s1 (cmd.handler permission argv) with
        | (s2, ret) => ({ s2 with currentCommand := none }, ret)

/-- command.c lines 1535-1538, processCommand: a single top-level command is
one dispatch with no list node. -/
def processCommand (registry : List CommandEntry) (s : CState)
    (permission : Nat) (argv : List String) : CState × Int :=
  processCommandInternal registry s permission argv

/-- The loop body of processListOfCommands (command.c lines 1518-1529):
dispatch each entry in order; stop on a nonzero return, otherwise print
list_OK when the listOK flag is set, increment command_listNum and continue.
The connection is modelled as live throughout (client_is_expired false). -/
def processListBody (registry : List CommandEntry) (permission : Nat)
    (listOK : Bool) : List (List String) → CState → CState × Int
  | [], s => (s, 0)
  | argv :: rest, s =>
      match processCommandInternal registry s permission argv with
      | (s1, ret) =>
          if ret ≠ 0 then (s1, ret)
          else
            processListBody registry permission listOK rest
              { (if listOK then
                  { s1 with output := s1.output ++ [Line.listOK] }
                 else s1) with
                commandListNum :=
                  (if listOK then
                    { s1 with output := s1.output ++ [Line.listOK] }
                   else s1).commandListNum + 1 }

/-- command.c lines 1510-1533, processListOfCommands: zero command_listNum,
run the loop, and zero command_listNum again on the way out. -/
def processListOfCommands (registry : List CommandEntry) (s : CState)
    (permission : Nat) (listOK : Bool) (list : List (List String)) :
    CState × Int :=
  match processListBody registry permission listOK list
      { s with commandListNum := 0 } with
  | (s1, ret) => ({ s1 with commandListNum := 0 }, ret)

/-- Modelled from the spec: the connection owner (client.c, which is not
under src/) calls command_success — the terminal OK line — when the list
executor returns zero, and propagates a nonzero return without printing
OK. -/
def runCommandList (registry : List CommandEntry) (s : CState)
    (permission : Nat) (listOK : Bool) (list : List (List String)) :
    CState × Int :=
  match processListOfCommands registry s permission listOK list with
  | (s1, ret) => if ret = 0 then (command_success s1, ret) else (s1, ret)

/-- The lines one dispatch appends to the output and the value it returns,
as a function of the registry, the permission mask, the current
command_listNum and the argument vector alone.  This is the observable
content of processCommandInternal, factored out of the state passing. -/
def dispatchDelta (registry : List CommandEntry) (permission : Nat)
    (listNum : Nat) (argv : List String) : List Line × Int :=
  if argv.isEmpty then ([], 0)
  else
    match findInList registry (argv.headD "") with
    | none =>
        ([Line.ack ACK_ERROR_UNKNOWN listNum ""
            ("unknown command \"" ++ argv.headD "" ++ "\"")], -1)
    | some cmd =>
        match checkArgcAndPermission cmd permission argv with
        | some e => ([Line.ack (ackCode e) listNum cmd.cmd (ackMessage e)], -1)
        | none =>
            match cmd.handler permission argv with
            | ⟨body, some (code, msg), ret⟩ =>
                (body.map Line.body ++ [Line.ack code listNum cmd.cmd msg], ret)
            | ⟨body, none, ret⟩ => (body.map Line.body, ret)

/-- Factorization of one dispatch: processCommandInternal appends exactly
the dispatchDelta lines, returns the dispatchDelta value, leaves
command_listNum unchanged, and clears current_command unless the argument
vector was empty. -/
theorem processCommandInternal_eq (registry : List CommandEntry) (s : CState)
    (permission : Nat) (argv : List String) :
    processCommandInternal registry s permission argv =
      ({ s with
          output := s.output ++
            (dispatchDelta registry permission s.commandListNum argv).1
          currentCommand :=
            if argv.isEmpty then s.currentCommand else none },
        (dispatchDelta registry permission s.commandListNum argv).2) := by
  cases argv with
  | nil => simp [processCommandInternal, dispatchDelta]
  | cons a t =>
      simp only [processCommandInternal, dispatchDelta,
        getCommandEntryAndCheckArgcAndPermission, List.isEmpty_cons,
        if_neg Bool.false_ne_true, List.headD_cons]
      cases hfind : findInList registry a with
      | none => simp [hfind, command_error]
      | some cmd =>
          cases hchk : checkArgcAndPermission cmd permission (a :: t) with
          | some e => simp [hfind, hchk, command_error]
          | none =>
              rcases ho : cmd.handler permission (a :: t) with ⟨body, err, ret⟩
              cases err with
              | none => simp [hfind, hchk, runHandler, ho]
              | some cm =>
                  rcases cm with ⟨code, msg⟩
                  simp [hfind, hchk, runHandler, ho, command_error,
                    List.append_assoc]

/-- A command line whose dispatch is silent and successful: its
dispatchDelta appends no lines and returns 0, at every list position. -/
def cleanEntry (registry : List CommandEntry) (permission : Nat)
    (argv : List String) : Prop :=
  ∀ n, dispatchDelta registry permission n argv = ([], 0)

/-- The value of current_command after a sequence of entries has been
dispatched: an empty argument vector leaves it alone, every other dispatch
clears it. -/
def ccAfter (argvs : List (List String)) (cc : Option String) : Option String :=
  argvs.foldl (fun c argv => if argv.isEmpty then c else none) cc

/-- Running the list loop over a clean prefix: every clean entry contributes
one list_OK line (in verbose mode) and one command_listNum increment, and
the loop continues with the remaining entries. -/
theorem processListBody_append_clean (registry : List CommandEntry)
    (permission : Nat) (lOK : Bool) (l : List (List String)) :
    ∀ pre : List (List String),
      (∀ argv ∈ pre, cleanEntry registry permission argv) →
      ∀ s : CState,
        processListBody registry permission lOK (pre ++ l) s =
          processListBody registry permission lOK l
            ⟨ccAfter pre s.currentCommand, s.commandListNum + pre.length,
              s.output ++
                (if lOK then List.replicate pre.length Line.listOK else [])⟩ := by
  intro pre
  induction pre with
  | nil =>
      intro h s
      cases s
      simp [ccAfter]
  | cons a t ih =>
      intro h s
      have ha := h a (List.mem_cons_self a t)
      have hrest : ∀ argv ∈ t, cleanEntry registry permission argv :=
        fun argv hm => h argv (List.mem_cons_of_mem a hm)
      have hstep := processCommandInternal_eq registry s permission a
      rw [ha s.commandListNum] at hstep
      simp only [List.cons_append, processListBody, hstep]
      norm_num
      rw [ih hrest]
      congr 1
      cases lOK <;> simp [ccAfter, List.replicate_succ] <;> omega

/-- Whitespace as skipped by strtol (C isspace). -/
def isSpaceChar (c : Char) : Bool :=
  c = ' ' ∨ c = '\t' ∨ c = '\n' ∨ c = '\x0b' ∨ c = '\x0c' ∨ c = '\r'

/-- Value of a nonempty digit string. -/
def digitsToNat (cs : List Char) : Nat :=
  cs.foldl (fun a c => a * 10 + (c.toNat - '0'.toNat)) 0

/-- strtol(s, &test, 10) as used by check_int/check_uint32: skip leading
whitespace, an optional sign, then a run of digits.  Returns the parsed
value together with the remaining characters (the C end pointer); when no
digits are present the value is 0 and the end pointer is the start of the
whole string.  (Range clamping on overflow is immaterial here: the claims
concern only the error classification.) -/
def strtol (s : String) : Int × List Char :=
  let cs := s.toList
  let afterSpace := cs.dropWhile isSpaceChar
  match afterSpace with
  | '-' :: r =>
      match r.takeWhile Char.isDigit with
      | [] => (0, cs)
      | ds => (-(digitsToNat ds : Int), r.dropWhile Char.isDigit)
  | '+' :: r =>
      match r.takeWhile Char.isDigit with
      | [] => (0, cs)
      | ds => ((digitsToNat ds : Int), r.dropWhile Char.isDigit)
  | r =>
      match r.takeWhile Char.isDigit with
      | [] => (0, cs)
      | ds => ((digitsToNat ds : Int), r.dropWhile Char.isDigit)

/-- Which format string a check_int caller passed; the C code compares the
fmt pointer against check_boolean and check_non_negative to decide on the
extra range restrictions (command.c lines 239-241). -/
inductive CheckFmt where
  | check_integer
  | need_integer
  | check_boolean
  | check_non_negative
  | need_positive
deriving DecidableEq

/-- The message each format string produces for an offending token
(command.c lines 146-152). -/
def fmtMessage : CheckFmt → String → String
  | .check_integer, s => "\"" ++ s ++ "\" is not a integer"
  | .need_integer, _ => "need an integer"
  | .check_boolean, s => "\"" ++ s ++ "\" is not 0 or 1"
  | .check_non_negative, s => "\"" ++ s ++ "\" is not an integer >= 0"
  | .need_positive, _ => "need a positive integer"

/-- command.c lines 233-249, check_int: parse with strtol; fail — by a
command_error call with code ACK_ERROR_ARG and the caller's format message —
when characters remain unconsumed, or the boolean format sees a value other
than 0/1, or the non-negative format sees a negative value. -/
def check_int (s : String) (fmt : CheckFmt) : Except CmdError Int :=
  match strtol s with
  | (v, rest) =>
      if rest ≠ [] ∨ (fmt = .check_boolean ∧ v ≠ 0 ∧ v ≠ 1)
          ∨ (fmt = .check_non_negative ∧ v < 0) then
        .error (.argFormat (fmtMessage fmt s))
      else
        .ok v

/-- Result of the external stat(2) call in client_allow_file: either an
errno failure or the file's owning uid and mode bits. -/
inductive StatResult where
  | error (errno : Int)
  | ok (st_uid : Int) (st_mode : Nat)
deriving DecidableEq

/-- Outcome of client_allow_file: access granted, denied with the
permission error ("Access denied"), or denied with the stat errno. -/
inductive AllowFileResult where
  | allow
  | denyPermission
  | denyErrno (errno : Int)
deriving DecidableEq

/-- ClientFile.cxx lines 30-70, client_allow_file (non-WIN32 branch): allow
immediately when the client uid is non-negative and equals the effective
uid; deny immediately when uid <= 0; otherwise consult the filesystem and
allow unless the client neither owns the file nor finds it world-readable.
The second component records whether stat(2) was called; the stat outcome
is an input because the filesystem is external. -/
def client_allow_file (uid : Int) (euid : Nat) (statRes : StatResult) :
    AllowFileResult × Bool :=
  if 0 ≤ uid ∧ uid = (euid : Int) then (.allow, false)
  else if uid ≤ 0 then (.denyPermission, false)
  else
    match statRes with
    | .error e => (.denyErrno e, true)
    | .ok stUid stMode =>
        if stUid ≠ uid ∧ stMode &&& 0o444 ≠ 0o444 then (.denyPermission, true)
        else (.allow, true)

/-- command.c lines 1186-1190, handlePing: do nothing and return 0. -/
def handlePing : Nat → List String → HandlerOutcome :=
  fun _ _ => ⟨[], none, 0⟩

/-- command.c lines 459-463, handleKill: return the kill sentinel. -/
def handleKill : Nat → List String → HandlerOutcome :=
  fun _ _ => ⟨[], none, COMMAND_RETURN_KILL⟩

/-- command.c lines 465-469, handleClose: return the close sentinel. -/
def handleClose : Nat → List String → HandlerOutcome :=
  fun _ _ => ⟨[], none, COMMAND_RETURN_CLOSE⟩

/-- Registry row for ping from initCommands (command.c line 1370):
permission PERMISSION_NONE, min 0, max 0. -/
def pingEntry : CommandEntry :=
  ⟨"ping", 0, 0, PERMISSION_NONE, handlePing⟩

/-- Registry row for kill from initCommands (command.c line 1334):
permission PERMISSION_ADMIN, min -1, max -1. -/
def killEntry : CommandEntry :=
  ⟨"kill", -1, -1, PERMISSION_ADMIN, handleKill⟩

/-- Test fixture: a command with the arity shape of save (min 1, max 1,
command.c line 1344) whose handler reports a system error, for exercising
the failure paths on concrete inputs. -/
def fixtureFailEntry : CommandEntry :=
  ⟨"flop", 1, 1, PERMISSION_NONE,
    fun _ _ => ⟨[], some (ACK_ERROR_SYSTEM, "boom"), -1⟩⟩

/-- Test fixture: a command with min 1, max 1 and the CONTROL permission
requirement, mirroring the save row of initCommands (command.c line 1344),
with a trivially succeeding handler. -/
def arity11Entry : CommandEntry :=
  ⟨"save", 1, 1, PERMISSION_CONTROL, fun _ _ => ⟨[], none, 0⟩⟩

/-- C8: an input line whose tokenization yields an empty argument vector
makes processCommandInternal return success (0) immediately with the state
untouched — no ACK, no list_OK, no body line, and no handler invocation
(the dispatcher never reaches the registry lookup). -/
theorem C8_empty_line_succeeds (registry : List CommandEntry) (s : CState)
    (permission : Nat) :
    processCommandInternal registry s permission [] = (s, 0) := rfl

/-- C7: formatting any failure through command_error clears the
current-command marker, and the lines and return value produced by a
dispatch are independent of whatever marker value an earlier command left
behind — so a stale name from an earlier command can never appear in a
later ACK frame; only the fresh dispatch's own resolution determines the
name that is printed. -/
theorem C7_stale_marker_never_printed :
    (∀ (s : CState) (code : Int) (msg : String),
        (command_error s code msg).currentCommand = none)
    ∧ (∀ (registry : List CommandEntry) (permission : Nat)
          (argv : List String) (s : CState) (cc : Option String),
        (processCommandInternal registry { s with currentCommand := cc }
            permission argv).1.output =
          (processCommandInternal registry s permission argv).1.output
        ∧ (processCommandInternal registry { s with currentCommand := cc }
            permission argv).2 =
          (processCommandInternal registry s permission argv).2) := by
  refine ⟨fun s code msg => rfl, ?_⟩
  intro registry permission argv s cc
  rw [processCommandInternal_eq, processCommandInternal_eq]
  exact ⟨rfl, rfl⟩

/-- C5: a nonempty line whose first token is not a registered command name
fails with ACK_ERROR_UNKNOWN, and the name field of the ACK frame is the
empty string — the attempted name appears only inside the message text —
while a completely empty line returns without reaching the failure
formatter at all. -/
theorem C5_unknown_command (registry : List CommandEntry) (s : CState)
    (permission : Nat) (argv : List String) (hne : argv ≠ [])
    (hfind : findInList registry (argv.headD "") = none) :
    processCommandInternal registry s permission argv =
      ({ s with
          output := s.output ++
            [Line.ack ACK_ERROR_UNKNOWN s.commandListNum ""
              ("unknown command \"" ++ argv.headD "" ++ "\"")]
          currentCommand := none }, -1)
    ∧ processCommandInternal registry s permission [] = (s, 0) := by
  refine ⟨?_, rfl⟩
  cases argv with
  | nil => exact absurd rfl hne
  | cons a t =>
      rw [processCommandInternal_eq]
      simp only [List.headD_cons] at hfind
      simp [dispatchDelta, hfind]

/-- Witness for C5 at a concrete input: the name bogus is not in a registry
holding only ping, and the ACK carries the empty name field. -/
theorem C5_unknown_command_witness :
    processCommandInternal [pingEntry] cstate0 PERMISSION_NONE ["bogus"] =
      ({ cstate0 with
          output := cstate0.output ++
            [Line.ack ACK_ERROR_UNKNOWN cstate0.commandListNum ""
              ("unknown command \"" ++ (["bogus"].headD "") ++ "\"")]
          currentCommand := none }, -1)
    ∧ processCommandInternal [pingEntry] cstate0 PERMISSION_NONE [] =
      (cstate0, 0) :=
  C5_unknown_command [pingEntry] cstate0 PERMISSION_NONE ["bogus"]
    (by simp) rfl

/-- C9: client_allow_file short-circuits without consulting the filesystem:
a client uid that is non-negative and equal to the process effective uid is
allowed immediately, while a negative uid, or a zero uid with a nonzero
effective uid, is denied with the permission error immediately — in all
three cases for every possible stat outcome, and with the
filesystem-consulted flag false. -/
theorem C9_client_allow_file_shortcut (uid : Int) (euid : Nat)
    (statRes : StatResult) :
    (0 ≤ uid → uid = (euid : Int) →
        client_allow_file uid euid statRes = (.allow, false))
    ∧ (uid < 0 →
        client_allow_file uid euid statRes = (.denyPermission, false))
    ∧ (uid = 0 → (euid : Int) ≠ 0 →
        client_allow_file uid euid statRes = (.denyPermission, false)) := by
  refine ⟨?_, ?_, ?_⟩
  · intro h1 h2
    simp only [client_allow_file]
    rw [if_pos ⟨h1, h2⟩]
  · intro h
    simp only [client_allow_file]
    rw [if_neg (by omega), if_pos (by omega)]
  · intro h1 h2
    simp only [client_allow_file]
    rw [if_neg (by omega), if_pos (by omega)]

/-- Witness for C9 at concrete inputs: uid 1000 matching euid 1000 is
allowed without stat; uid -1 and uid 0 under euid 1000 are denied without
stat, whatever stat would have returned. -/
theorem C9_client_allow_file_witness :
    client_allow_file 1000 1000 (.error 2) = (.allow, false)
    ∧ client_allow_file (-1) 1000 (.ok 0 0) = (.denyPermission, false)
    ∧ client_allow_file 0 1000 (.ok 0 0) = (.denyPermission, false) :=
  ⟨(C9_client_allow_file_shortcut 1000 1000 (.error 2)).1 (by decide)
      (by decide),
    (C9_client_allow_file_shortcut (-1) 1000 (.ok 0 0)).2.1 (by decide),
    (C9_client_allow_file_shortcut 0 1000 (.ok 0 0)).2.2 rfl (by decide)⟩

/-- Counterexample to C2 as stated: for the save-shaped descriptor
(min 1, max 1) and the one-element vector, the argument count 1 is below
minArgs+1 = 2, yet the code reports the wrong-number-of-arguments failure,
not the too-few-arguments failure the claim requires, because the
equal-arity check runs first. -/
theorem C2_counterexample :
    checkArgcAndPermission arity11Entry PERMISSION_CONTROL ["save"] =
      some (.wrongArgCount "save")
    ∧ checkArgcAndPermission arity11Entry PERMISSION_CONTROL ["save"] ≠
      some (.tooFewArgs "save") := by
  constructor
  · decide
  · decide

/-- C2 (amended): for a descriptor with the permission satisfied, minArgs
equal to -1 skips all arity checking; otherwise the equal-arity check takes
precedence — when minArgs+1 equals maxArgs+1 any mismatched count yields
the wrong-argument-count failure — and only when the bounds differ does a
count below minArgs+1 yield too-few-arguments and (for maxArgs not -1) a
count above maxArgs+1 yield too-many-arguments; every remaining count
validates successfully. -/
theorem C2_arity_validation (cmd : CommandEntry) (permission : Nat)
    (argv : List String)
    (hperm : cmd.reqPermission = permission &&& cmd.reqPermission) :
    (cmd.min = -1 → checkArgcAndPermission cmd permission argv = none)
    ∧ (cmd.min ≠ -1 →
        ((cmd.min = cmd.max ∧ (argv.length : Int) ≠ cmd.max + 1 →
            checkArgcAndPermission cmd permission argv =
              some (.wrongArgCount (argv.headD "")))
        ∧ (cmd.min ≠ cmd.max → (argv.length : Int) < cmd.min + 1 →
            checkArgcAndPermission cmd permission argv =
              some (.tooFewArgs (argv.headD "")))
        ∧ (cmd.min ≠ cmd.max → cmd.min + 1 ≤ (argv.length : Int) →
            cmd.max ≠ -1 → cmd.max + 1 < (argv.length : Int) →
            checkArgcAndPermission cmd permission argv =
              some (.tooManyArgs (argv.headD "")))
        ∧ (cmd.min = cmd.max → (argv.length : Int) = cmd.max + 1 →
            checkArgcAndPermission cmd permission argv = none)
        ∧ (cmd.min ≠ cmd.max → cmd.min + 1 ≤ (argv.length : Int) →
            (cmd.max = -1 ∨ (argv.length : Int) ≤ cmd.max + 1) →
            checkArgcAndPermission cmd permission argv = none))) := by
  have hp : ¬cmd.reqPermission ≠ permission &&& cmd.reqPermission :=
    not_not_intro hperm
  refine ⟨?_, fun hmin => ⟨?_, ?_, ?_, ?_, ?_⟩⟩
  · intro h
    simp only [checkArgcAndPermission]
    rw [if_neg hp, if_pos (by omega)]
  · intro h
    simp only [checkArgcAndPermission]
    rw [if_neg hp, if_neg (by omega), if_pos (by omega)]
  · intro hne hlt
    simp only [checkArgcAndPermission]
    rw [if_neg hp, if_neg (by omega), if_neg (by omega), if_pos (by omega)]
  · intro hne hge hmax hgt
    simp only [checkArgcAndPermission]
    rw [if_neg hp, if_neg (by omega), if_neg (by omega), if_neg (by omega),
      if_pos (by omega)]
  · intro heq hcount
    simp only [checkArgcAndPermission]
    rw [if_neg hp, if_neg (by omega), if_neg (by omega), if_neg (by omega),
      if_neg (by omega)]
  · intro hne hge hor
    simp only [checkArgcAndPermission]
    rw [if_neg hp, if_neg (by omega), if_neg (by omega), if_neg (by omega),
      if_neg (by omega)]

/-- Witness for C2 at a concrete input: the save row with three arguments
past the name hits the wrong-argument-count branch. -/
theorem C2_arity_validation_witness :
    checkArgcAndPermission arity11Entry PERMISSION_CONTROL
        ["save", "a", "b"] = some (.wrongArgCount "save") :=
  ((C2_arity_validation arity11Entry PERMISSION_CONTROL ["save", "a", "b"]
      (by decide)).2 (by decide)).1 ⟨by decide, by decide⟩

/-- C4: the permission gate of checkArgcAndPermission is a pure function of
the pair (required bits, granted bits): it denies exactly when the required
mask is not preserved by intersection with the granted mask, which holds
exactly when every required bit is granted; adding extra granted bits never
changes the outcome of a dispatch that was not permission-denied; and a
required mask of zero can never be denied. -/
theorem C4_permission_check_pure :
    (∀ (cmd : CommandEntry) (permission : Nat) (argv : List String),
        checkArgcAndPermission cmd permission argv =
            some (.permissionDenied cmd.cmd) ↔
          cmd.reqPermission ≠ permission &&& cmd.reqPermission)
    ∧ (∀ req granted : Nat,
        req = granted &&& req ↔
          ∀ i, req.testBit i = true → granted.testBit i = true)
    ∧ (∀ (cmd : CommandEntry) (permission extra : Nat) (argv : List String),
        checkArgcAndPermission cmd permission argv ≠
            some (.permissionDenied cmd.cmd) →
        checkArgcAndPermission cmd (permission ||| extra) argv =
          checkArgcAndPermission cmd permission argv)
    ∧ (∀ (cmd : CommandEntry) (permission : Nat) (argv : List String),
        cmd.reqPermission = 0 →
        checkArgcAndPermission cmd permission argv ≠
          some (.permissionDenied cmd.cmd)) := by
  have key : ∀ (cmd : CommandEntry) (permission : Nat) (argv : List String),
      cmd.reqPermission = permission &&& cmd.reqPermission →
      checkArgcAndPermission cmd permission argv ≠
        some (.permissionDenied cmd.cmd) := by
    intro cmd permission argv hperm h
    simp only [checkArgcAndPermission, if_neg (not_not_intro hperm)] at h
    split_ifs at h <;> simp at h
  refine ⟨?_, ?_, ?_, ?_⟩
  · intro cmd permission argv
    constructor
    · intro h
      by_contra hp
      exact key cmd permission argv hp h
    · intro hne
      simp only [checkArgcAndPermission, if_pos hne]
  · intro req granted
    constructor
    · intro h i hi
      have ht := congrArg (fun n => n.testBit i) h
      simp only [Nat.testBit_land] at ht
      rw [hi, Bool.and_true] at ht
      exact ht.symm
    · intro h
      apply Nat.eq_of_testBit_eq
      intro i
      rw [Nat.testBit_land]
      cases hb : req.testBit i with
      | false => simp
      | true => simp [h i hb]
  · intro cmd permission extra argv h
    have hperm : cmd.reqPermission = permission &&& cmd.reqPermission := by
      by_contra hne
      exact h (by simp only [checkArgcAndPermission, if_pos hne])
    have hperm2 : cmd.reqPermission =
        (permission ||| extra) &&& cmd.reqPermission := by
      apply Nat.eq_of_testBit_eq
      intro i
      have ht := congrArg (fun n => n.testBit i) hperm
      simp only [Nat.testBit_land] at ht
      rw [Nat.testBit_land, Nat.testBit_lor]
      cases hb : cmd.reqPermission.testBit i with
      | false => simp
      | true =>
          rw [hb, Bool.and_true] at ht
          rw [← ht]
          simp
    simp only [checkArgcAndPermission, if_neg (not_not_intro hperm),
      if_neg (not_not_intro hperm2)]
  · intro cmd permission argv h0
    apply key
    rw [h0, Nat.and_zero]

/-- Witness for C4 at a concrete input: granting the extra READ bit on top
of CONTROL leaves the validation outcome of the save row unchanged. -/
theorem C4_permission_check_witness :
    checkArgcAndPermission arity11Entry
        (PERMISSION_CONTROL ||| PERMISSION_READ) ["save", "x"] =
      checkArgcAndPermission arity11Entry PERMISSION_CONTROL ["save", "x"] :=
  C4_permission_check_pure.2.2.1 arity11Entry PERMISSION_CONTROL
    PERMISSION_READ ["save", "x"] (by decide)

/-- C10: the three arity-violation failures and every failure reported by
the handler-local argument parser check_int carry the same numeric ACK code
ACK_ERROR_ARG, while their message texts are pairwise distinct — on the
wire they are distinguishable only by the message, never by the code
field. -/
theorem C10_arg_errors_share_code :
    (∀ name : String,
        ackCode (.wrongArgCount name) = ACK_ERROR_ARG
        ∧ ackCode (.tooFewArgs name) = ACK_ERROR_ARG
        ∧ ackCode (.tooManyArgs name) = ACK_ERROR_ARG)
    ∧ (∀ (s : String) (fmt : CheckFmt) (e : CmdError),
        check_int s fmt = .error e → ackCode e = ACK_ERROR_ARG)
    ∧ (∀ name : String,
        ackMessage (.wrongArgCount name) ≠ ackMessage (.tooFewArgs name)
        ∧ ackMessage (.wrongArgCount name) ≠ ackMessage (.tooManyArgs name)
        ∧ ackMessage (.tooFewArgs name) ≠ ackMessage (.tooManyArgs name)) := by
  have e1 : ("wrong number of arguments for \"" : String).length = 31 := rfl
  have e2 : ("too few arguments for \"" : String).length = 23 := rfl
  have e3 : ("too many arguments for \"" : String).length = 24 := rfl
  refine ⟨fun name => ⟨rfl, rfl, rfl⟩, ?_, ?_⟩
  · intro s fmt e h
    rw [check_int] at h
    rcases hst : strtol s with ⟨v, rest⟩
    rw [hst] at h
    simp only [] at h
    split_ifs at h with hcond
    injection h with h2
    rw [← h2]
    rfl
  · intro name
    refine ⟨?_, ?_, ?_⟩ <;> intro h <;>
      have hl := congrArg String.length h <;>
      simp only [ackMessage, String.length_append, e1, e2, e3] at hl <;>
      omega

/-- Witness for C10 at a concrete input: check_int rejects the token abc
with a failure whose code is ACK_ERROR_ARG. -/
theorem C10_arg_errors_share_code_witness :
    ackCode (.argFormat (fmtMessage .need_integer "abc")) = ACK_ERROR_ARG :=
  C10_arg_errors_share_code.2.1 "abc" .need_integer
    (.argFormat (fmtMessage .need_integer "abc")) rfl

/-- Counterexample to C1 as stated: a verbose batch of one succeeding
command (n = 1) outputs one list_OK line before the terminal OK, not the
n-1 = 0 lines the claim requires — the loop prints list_OK after every
successful entry, the terminal one included. -/
theorem C1_counterexample :
    (runCommandList [pingEntry] cstate0 PERMISSION_NONE true
        [["ping"]]).1.output = [Line.listOK, Line.ok]
    ∧ (runCommandList [pingEntry] cstate0 PERMISSION_NONE true
        [["ping"]]).1.output ≠
      List.replicate (1 - 1) Line.listOK ++ [Line.ok] := by
  constructor
  · decide
  · decide

/-- C1 (amended): a verbose batch of n commands that all dispatch silently
and successfully outputs exactly n list_OK lines — one after each
successful entry, the terminal one included — followed by one terminal OK,
and the executor returns success. -/
theorem C1_verbose_batch (registry : List CommandEntry) (permission : Nat)
    (cmds : List (List String)) (s : CState)
    (h : ∀ argv ∈ cmds, cleanEntry registry permission argv) :
    (runCommandList registry s permission true cmds).1.output =
      s.output ++ List.replicate cmds.length Line.listOK ++ [Line.ok]
    ∧ (runCommandList registry s permission true cmds).2 = 0 := by
  have hb := processListBody_append_clean registry permission true [] cmds h
    { s with commandListNum := 0 }
  rw [List.append_nil] at hb
  simp only [processListBody] at hb
  simp [runCommandList, processListOfCommands, hb, command_success,
    List.append_assoc]

/-- Witness for C1 at a concrete input: a verbose batch of two ping
commands outputs two list_OK lines and the terminal OK. -/
theorem C1_verbose_batch_witness :
    (runCommandList [pingEntry] cstate0 PERMISSION_NONE true
        [["ping"], ["ping"]]).1.output =
      cstate0.output ++ List.replicate 2 Line.listOK ++ [Line.ok]
    ∧ (runCommandList [pingEntry] cstate0 PERMISSION_NONE true
        [["ping"], ["ping"]]).2 = 0 :=
  C1_verbose_batch [pingEntry] PERMISSION_NONE [["ping"], ["ping"]] cstate0
    (by
      intro argv hm n
      rcases List.mem_cons.mp hm with rfl | hm2
      · rfl
      · rcases List.mem_cons.mp hm2 with rfl | hm3
        · rfl
        · cases hm3)

/-- C3: in a batch of three commands where the first dispatches
successfully (here writing its body lines) and the second resolves,
validates and then fails in its handler, the executor keeps the first
command's output — nothing is rolled back — formats exactly one ACK frame,
carrying list position 1 and the second command's name, and never
dispatches the third entry: the result is the same whatever the third
entry holds. -/
theorem C3_batch_abort (registry : List CommandEntry) (permission : Nat)
    (lOK : Bool) (s : CState) (a1 a2 a3 : List String)
    (cmd1 : CommandEntry) (body1 : List String)
    (cmd2 : CommandEntry) (body2 : List String) (code2 : Int) (msg2 : String)
    (ret2 : Int)
    (h1ne : a1 ≠ []) (h1find : findInList registry (a1.headD "") = some cmd1)
    (h1chk : checkArgcAndPermission cmd1 permission a1 = none)
    (h1run : cmd1.handler permission a1 = ⟨body1, none, 0⟩)
    (h2ne : a2 ≠ []) (h2find : findInList registry (a2.headD "") = some cmd2)
    (h2chk : checkArgcAndPermission cmd2 permission a2 = none)
    (h2run : cmd2.handler permission a2 = ⟨body2, some (code2, msg2), ret2⟩)
    (h2ret : ret2 ≠ 0) :
    (processListOfCommands registry s permission lOK [a1, a2, a3]).1.output =
      s.output ++ body1.map Line.body ++ (if lOK then [Line.listOK] else [])
        ++ body2.map Line.body ++ [Line.ack code2 1 cmd2.cmd msg2]
    ∧ (processListOfCommands registry s permission lOK [a1, a2, a3]).2 =
      ret2 := by
  have hd1 : dispatchDelta registry permission 0 a1 =
      (body1.map Line.body, 0) := by
    cases a1 with
    | nil => exact absurd rfl h1ne
    | cons x t =>
        simp only [List.headD_cons] at h1find
        simp [dispatchDelta, h1find, h1chk, h1run]
  have hd2 : dispatchDelta registry permission 1 a2 =
      (body2.map Line.body ++ [Line.ack code2 1 cmd2.cmd msg2], ret2) := by
    cases a2 with
    | nil => exact absurd rfl h2ne
    | cons x t =>
        simp only [List.headD_cons] at h2find
        simp [dispatchDelta, h2find, h2chk, h2run]
  cases lOK <;>
    simp [processListOfCommands, processListBody, processCommandInternal_eq,
      hd1, hd2, h2ret, List.append_assoc]

/-- Witness for C3 at a concrete input: ping succeeds, the fixture command
flop fails with a system error attributed to list position 1 and the name
flop, and a following ping is never run. -/
theorem C3_batch_abort_witness :
    (processListOfCommands [pingEntry, fixtureFailEntry] cstate0
        PERMISSION_NONE true [["ping"], ["flop", "x"], ["ping"]]).1.output =
      cstate0.output ++ List.map Line.body [] ++ (if true then [Line.listOK]
        else []) ++ List.map Line.body []
        ++ [Line.ack ACK_ERROR_SYSTEM 1 "flop" "boom"]
    ∧ (processListOfCommands [pingEntry, fixtureFailEntry] cstate0
        PERMISSION_NONE true [["ping"], ["flop", "x"], ["ping"]]).2 = -1 :=
  C3_batch_abort [pingEntry, fixtureFailEntry] PERMISSION_NONE true cstate0
    ["ping"] ["flop", "x"] ["ping"] pingEntry [] fixtureFailEntry []
    ACK_ERROR_SYSTEM "boom" (-1)
    (by simp) rfl rfl rfl
    (by simp) rfl rfl rfl
    (by decide)

/-- C6: when an entry of a command list resolves, validates and returns a
connection-lifecycle sentinel (kill or close) from its handler, the list
executor stops at that entry and returns the sentinel value unchanged — it
is not reinterpreted as an error, no ACK is formatted for it, no list_OK is
printed for it, and no later entry is dispatched: the output holds exactly
the verbose acknowledgements of the clean prefix. -/
theorem C6_sentinel_propagates (registry : List CommandEntry)
    (permission : Nat) (lOK : Bool) (s : CState)
    (pre post : List (List String)) (a : List String) (cmd : CommandEntry)
    (r : Int)
    (hpre : ∀ argv ∈ pre, cleanEntry registry permission argv)
    (hne : a ≠ []) (hfind : findInList registry (a.headD "") = some cmd)
    (hchk : checkArgcAndPermission cmd permission a = none)
    (hrun : cmd.handler permission a = ⟨[], none, r⟩)
    (hr : r = COMMAND_RETURN_KILL ∨ r = COMMAND_RETURN_CLOSE) :
    (processListOfCommands registry s permission lOK (pre ++ a :: post)).2 =
      r
    ∧ (processListOfCommands registry s permission lOK
        (pre ++ a :: post)).1.output =
      s.output ++
        (if lOK then List.replicate pre.length Line.listOK else []) := by
  have hr0 : r ≠ 0 := by rcases hr with rfl | rfl <;> decide
  have hd : ∀ n, dispatchDelta registry permission n a = ([], r) := by
    intro n
    cases a with
    | nil => exact absurd rfl hne
    | cons x t =>
        simp only [List.headD_cons] at hfind
        simp [dispatchDelta, hfind, hchk, hrun]
  have hb := processListBody_append_clean registry permission lOK (a :: post)
    pre hpre { s with commandListNum := 0 }
  constructor <;>
    simp [processListOfCommands, hb, processListBody,
      processCommandInternal_eq, hd, hr0]

/-- Witness for C6 at a concrete input: the kill command as sole entry of a
verbose batch makes the executor return the kill sentinel with no output,
skipping a following ping entirely. -/
theorem C6_sentinel_propagates_witness :
    (processListOfCommands [killEntry, pingEntry] cstate0 PERMISSION_ADMIN
        true ([] ++ ["kill"] :: [["ping"]])).2 = COMMAND_RETURN_KILL
    ∧ (processListOfCommands [killEntry, pingEntry] cstate0 PERMISSION_ADMIN
        true ([] ++ ["kill"] :: [["ping"]])).1.output =
      cstate0.output ++
        (if true then List.replicate ([] : List (List String)).length
          Line.listOK else []) :=
  C6_sentinel_propagates [killEntry, pingEntry] PERMISSION_ADMIN true cstate0
    [] [["ping"]] ["kill"] killEntry COMMAND_RETURN_KILL
    (fun argv hm => absurd hm (List.not_mem_nil argv))
    (by simp) rfl rfl rfl (Or.inl rfl)

end MPD
